import Mathlib

/-!
Verification development for the IoT dashboard frontend.

The numeric values flowing through the pages are plain JavaScript numbers
used as exact quantities (no rounding until display, per the design
document), so they are modelled as rationals.  Stateful page logic
(the realtime cyclic sampler, the analysis-page fetch fallbacks) is
modelled by explicit state passing: each fetch handler becomes a function
from the page state and the outcome of the HTTP request to the new page
state.
-/

/- ================= Realtime page (src/app/realtime/page.tsx) ================= -/

/-- One row of the `hourly_energy` table as received by the realtime page
(type `RawPowerData` in the source). -/
structure RawPowerData where
  id : ℚ
  tegangan : ℚ
  arus : ℚ
  daya_watt : ℚ
  energi_kwh : ℚ
  frekuensi : ℚ
  pf : ℚ
  created_at : String
deriving DecidableEq, Repr

/-- The mutable state of `RealtimeMonitoringPage`: the three `useState`
cells `last7Data`, `currentIndex` and `isLive`. -/
structure SamplerState where
  last7Data : List RawPowerData
  currentIndex : Nat
  isLive : Bool
deriving DecidableEq, Repr

/-- Initial state of the page: `useState([])`, `useState(0)`, `useState(true)`. -/
def initState : SamplerState := { last7Data := [], currentIndex := 0, isLive := true }

/-- Outcome of one `fetch("/power/last7")` round trip as observed by the
`try`/`catch` in `fetch7Data`: either the request threw (network error, or
the non-2xx branch that raises `HTTP error!`), or an envelope
`{success, data, count}` arrived, whose `data` field may be missing
(`none`) or be a list. -/
inductive FetchOutcome where
  | fail
  | envelope (success : Bool) (data : Option (List RawPowerData))
deriving DecidableEq, Repr

/-- The `fetch7Data` handler of the realtime page: on
`json.success && json.data && json.data.length > 0` it installs the new
buffer and sets `isLive := true`; on every other outcome it only sets
`isLive := false`. -/
def fetch7Data (s : SamplerState) (o : FetchOutcome) : SamplerState :=
  match o with
  | .fail => { s with isLive := false }
  | .envelope success data? =>
    match data? with
    | none => { s with isLive := false }
    | some data =>
      if success && data.length > 0 then
        { s with last7Data := data, isLive := true }
      else
        { s with isLive := false }

/-- The cycle-interval callback of the realtime page
(`setCurrentIndex (prev => (prev + 1) % last7Data.length)`), guarded by the
early return of the effect when `last7Data.length === 0`.  The design
document calls this operation `advanceFocus`. -/
def advanceFocus (s : SamplerState) : SamplerState :=
  if s.last7Data.length = 0 then s
  else { s with currentIndex := (s.currentIndex + 1) % s.last7Data.length }

/-- One step of the sampler: either a refresh with some fetch outcome, or
an advance of the focus index. -/
inductive SamplerOp where
  | refresh (o : FetchOutcome)
  | advance
deriving DecidableEq, Repr

/-- Apply one sampler operation to the page state. -/
def applyOp (s : SamplerState) : SamplerOp → SamplerState
  | .refresh o => fetch7Data s o
  | .advance => advanceFocus s

/-- Run a sequence of sampler operations from a given state. -/
def runOps (s : SamplerState) : List SamplerOp → SamplerState
  | [] => s
  | op :: rest => runOps (applyOp s op) rest

/-- A fetch outcome on which `fetch7Data` does not install a new buffer:
a thrown request, a `success = false` envelope, a missing `data` field, or
an empty `data` array. -/
def failingOutcome : FetchOutcome → Bool
  | .fail => true
  | .envelope _ none => true
  | .envelope success (some data) => !success || data.length == 0

/-- Sample reading with `daya_watt = 100` used in the buffer-shrink scenario. -/
def p100 : RawPowerData :=
  { id := 1, tegangan := 0, arus := 0, daya_watt := 100,
    energi_kwh := 0, frekuensi := 0, pf := 0, created_at := "" }

/-- Sample reading with `daya_watt = 200` used in the buffer-shrink scenario. -/
def p200 : RawPowerData :=
  { id := 2, tegangan := 0, arus := 0, daya_watt := 200,
    energi_kwh := 0, frekuensi := 0, pf := 0, created_at := "" }

/-- Sample reading with `daya_watt = 300` used in the buffer-shrink scenario. -/
def p300 : RawPowerData :=
  { id := 3, tegangan := 0, arus := 0, daya_watt := 300,
    energi_kwh := 0, frekuensi := 0, pf := 0, created_at := "" }

/- ========== Energy-history page helpers (src/unnamed/part_000) ========== -/

/-- The five numeric fields of one entry of `ENERGY_THRESHOLDS`. -/
structure PeriodThresholds where
  veryLow : ℚ
  low : ℚ
  normal : ℚ
  high : ℚ
  veryHigh : ℚ
deriving DecidableEq, Repr

/-- The three entries of the `ENERGY_THRESHOLDS` object. -/
structure EnergyThresholdsTable where
  daily : PeriodThresholds
  hourly : PeriodThresholds
  monthly : PeriodThresholds
deriving DecidableEq, Repr

/-- The `ENERGY_THRESHOLDS` constant of the energy-history page. -/
def ENERGY_THRESHOLDS : EnergyThresholdsTable :=
  { daily := { veryLow := 3, low := 8, normal := 15, high := 25, veryHigh := 25 }
    hourly := { veryLow := 0.1, low := 0.3, normal := 0.8, high := 1.5, veryHigh := 1.5 }
    monthly := { veryLow := 90, low := 240, normal := 450, high := 750, veryHigh := 750 } }

/-- The period argument of `getEnergyStatus`. -/
inductive Period where
  | hourly
  | daily
  | monthly
deriving DecidableEq, Repr

/-- The return value of `getEnergyStatus`. -/
structure EnergyStatus where
  status : String
  color : String
  description : String
deriving DecidableEq, Repr

/-- The nested-if body of `getEnergyStatus`, with the selected thresholds
entry as a parameter. -/
def classifyWith (thresholds : PeriodThresholds) (usage : ℚ) : EnergyStatus :=
  if usage < thresholds.veryLow then
    { status := "Very Low", color := "bg-green-100 text-green-800",
      description := "Konsumsi sangat hemat" }
  else if usage < thresholds.low then
    { status := "Low", color := "bg-green-100 text-green-700",
      description := "Konsumsi rendah" }
  else if usage < thresholds.normal then
    { status := "Normal", color := "bg-blue-100 text-blue-700",
      description := "Konsumsi normal" }
  else if usage < thresholds.high then
    { status := "High", color := "bg-yellow-100 text-yellow-700",
      description := "Konsumsi tinggi" }
  else
    { status := "Very High", color := "bg-red-100 text-red-700",
      description := "Konsumsi sangat tinggi" }

/-- The `getEnergyStatus` helper: select `ENERGY_THRESHOLDS[period]` and
run the nested-if classification on it. -/
def getEnergyStatus (usage : ℚ) (period : Period) : EnergyStatus :=
  classifyWith
    (match period with
      | .hourly => ENERGY_THRESHOLDS.hourly
      | .daily => ENERGY_THRESHOLDS.daily
      | .monthly => ENERGY_THRESHOLDS.monthly)
    usage

/-- The ordering of the five status strings, Very Low being the lowest
tier and Very High the highest. -/
def statusTier : String → Nat
  | "Very Low" => 0
  | "Low" => 1
  | "Normal" => 2
  | "High" => 3
  | "Very High" => 4
  | _ => 5

/-- Modelled from the spec: the half-open bucket table of §4.2, written
with both interval endpoints explicit, `[lower, upper)` buckets and the
last bucket unbounded above. -/
def specBucket (u a b c d : ℚ) : String :=
  if u < a then "Very Low"
  else if a ≤ u ∧ u < b then "Low"
  else if b ≤ u ∧ u < c then "Normal"
  else if c ≤ u ∧ u < d then "High"
  else "Very High"

/-- Modelled from the spec: the per-period threshold table of §4.2
(hourly 0.1/0.3/0.8/1.5, daily 3/8/15/25, monthly 90/240/450/750). -/
def specClassify (u : ℚ) (p : Period) : String :=
  match p with
  | .hourly => specBucket u 0.1 0.3 0.8 1.5
  | .daily => specBucket u 3 8 15 25
  | .monthly => specBucket u 90 240 450 750

/-- The `ELECTRICITY_RATES` constant of the energy-history page. -/
structure ElectricityRatesHistory where
  R1_900VA : ℚ
  R1_1300VA : ℚ
  R1_2200VA : ℚ
  R2_3500VA : ℚ
deriving DecidableEq, Repr

/-- The rate table of the energy-history page. -/
def ELECTRICITY_RATES : ElectricityRatesHistory :=
  { R1_900VA := 1444.70, R1_1300VA := 1444.70,
    R1_2200VA := 1444.70, R2_3500VA := 1699.53 }

/-- The return value of `calculateCost`. -/
structure CostResult where
  idr : ℚ
  usd : ℚ
deriving DecidableEq, Repr

/-- The `calculateCost` helper of the energy-history page:
`costIDR = kWh * R1_2200VA` and `costUSD = costIDR / 15500`. -/
def calculateCost (kWh : ℚ) : CostResult :=
  let costIDR := kWh * ELECTRICITY_RATES.R1_2200VA
  let costUSD := costIDR / 15500
  { idr := costIDR, usd := costUSD }

/- ========== Reports page copy (src/app/alerts/page.tsx) ========== -/

/-- The `ELECTRICITY_RATES` constant of the reports page (two entries). -/
structure ElectricityRatesReports where
  R1_2200VA : ℚ
  R2_3500VA : ℚ
deriving DecidableEq, Repr

/-- The rate table of the reports page. -/
def ELECTRICITY_RATES_reports : ElectricityRatesReports :=
  { R1_2200VA := 1444.70, R2_3500VA := 1699.53 }

/-- The `USD_TO_IDR` constant of the reports page. -/
def USD_TO_IDR : ℚ := 15500

/-- The `calculateCost` copy on the reports page. -/
def calculateCostReports (kWh : ℚ) : CostResult :=
  let costIDR := kWh * ELECTRICITY_RATES_reports.R1_2200VA
  let costUSD := costIDR / USD_TO_IDR
  { idr := costIDR, usd := costUSD }

/- ========== Analysis page (src/app/analysis/page.tsx) ========== -/

/-- One point of the peak-usage chart (type `PeakData` in the source). -/
structure PeakData where
  time : String
  usage : ℚ
  timestamp : Option String
deriving DecidableEq, Repr

/-- One row of the load-pattern chart (type `LoadPatternDay` in the source). -/
structure LoadPatternDay where
  day : String
  morning : ℚ
  afternoon : ℚ
  evening : ℚ
  total_energy : Option ℚ
deriving DecidableEq, Repr

/-- The `DUMMY_PEAK_DATA` fallback sample set. -/
def DUMMY_PEAK_DATA : List PeakData :=
  [ { time := "18:11", usage := 365, timestamp := none },
    { time := "18:12", usage := 395, timestamp := none },
    { time := "18:13", usage := 455, timestamp := none },
    { time := "18:13", usage := 375, timestamp := none },
    { time := "18:14", usage := 505, timestamp := none },
    { time := "18:14", usage := 525, timestamp := none },
    { time := "18:14", usage := 610, timestamp := none } ]

/-- The `DUMMY_LOAD_PATTERN` fallback sample set. -/
def DUMMY_LOAD_PATTERN : List LoadPatternDay :=
  [ { day := "Mon", morning := 365, afternoon := 455, evening := 610, total_energy := none },
    { day := "Tue", morning := 395, afternoon := 375, evening := 525, total_energy := none },
    { day := "Wed", morning := 365, afternoon := 505, evening := 455, total_energy := none },
    { day := "Thu", morning := 455, afternoon := 610, evening := 395, total_energy := none },
    { day := "Fri", morning := 375, afternoon := 525, evening := 505, total_energy := none },
    { day := "Sat", morning := 505, afternoon := 365, evening := 610, total_energy := none },
    { day := "Sun", morning := 525, afternoon := 395, evening := 455, total_energy := none } ]

/-- Outcome of one analysis-page request as seen by its handler: the
request threw, the response was non-2xx, or a body arrived which either
is not an array (`arrayBody = none`) or is an array of items. -/
inductive AnalysisFetch (α : Type) where
  | thrown
  | httpError
  | ok (arrayBody : Option (List α))
deriving DecidableEq, Repr

/-- The mutable state of `PowerAnalysisPage` relevant here: the two chart
datasets and the `error` cell. -/
structure AnalysisState where
  peakUsageData : List PeakData
  loadPatternData : List LoadPatternDay
  error : Option String
deriving DecidableEq, Repr

/-- The `fetchPeakUsageData` handler: on a thrown request, a non-2xx
status, a non-array body or an empty array it installs `DUMMY_PEAK_DATA`;
otherwise it installs the formatted records.  It never touches `error`. -/
def fetchPeakUsageData (s : AnalysisState) (r : AnalysisFetch PeakData) : AnalysisState :=
  match r with
  | .thrown => { s with peakUsageData := DUMMY_PEAK_DATA }
  | .httpError => { s with peakUsageData := DUMMY_PEAK_DATA }
  | .ok none => { s with peakUsageData := DUMMY_PEAK_DATA }
  | .ok (some data) =>
    if data.length = 0 then
      { s with peakUsageData := DUMMY_PEAK_DATA }
    else
      { s with peakUsageData :=
          data.map (fun item =>
            { time := item.time, usage := item.usage, timestamp := item.timestamp }) }

/-- The `fetchLoadPatternData` handler, same shape as the peak-usage one
with `DUMMY_LOAD_PATTERN` as the fallback.  It never touches `error`. -/
def fetchLoadPatternData (s : AnalysisState) (r : AnalysisFetch LoadPatternDay) : AnalysisState :=
  match r with
  | .thrown => { s with loadPatternData := DUMMY_LOAD_PATTERN }
  | .httpError => { s with loadPatternData := DUMMY_LOAD_PATTERN }
  | .ok none => { s with loadPatternData := DUMMY_LOAD_PATTERN }
  | .ok (some data) =>
    if data.length = 0 then
      { s with loadPatternData := DUMMY_LOAD_PATTERN }
    else
      { s with loadPatternData :=
          data.map (fun item =>
            { day := item.day, morning := item.morning, afternoon := item.afternoon,
              evening := item.evening, total_energy := item.total_energy }) }

/-- The `fetchAllData` driver: `setError(null)` up front, then the two
chart fetchers run (the other two fetchers do not touch these three state
cells); the fetchers catch internally, and the outer catch also only does
`setError(null)`. -/
def fetchAllData (s : AnalysisState)
    (rp : AnalysisFetch PeakData) (rl : AnalysisFetch LoadPatternDay) : AnalysisState :=
  fetchLoadPatternData (fetchPeakUsageData { s with error := none } rp) rl

/-- An analysis-page fetch outcome on which the handler substitutes its
dummy fallback: thrown, non-2xx, non-array body, or empty array. -/
def analysisFailing {α : Type} : AnalysisFetch α → Bool
  | .thrown => true
  | .httpError => true
  | .ok none => true
  | .ok (some data) => data.length == 0

/-- Operation sequence that drives the realtime page from its initial
state to a state with a one-record buffer and focus index 1: install a
two-record buffer, advance once, then install a one-record buffer. -/
def shrinkOps : List SamplerOp :=
  [ SamplerOp.refresh (FetchOutcome.envelope true (some [p100, p200])),
    SamplerOp.advance,
    SamplerOp.refresh (FetchOutcome.envelope true (some [p300])) ]

/-- A concrete analysis-page state used to instantiate the fallback
theorem. -/
def analysisInit : AnalysisState :=
  { peakUsageData := [], loadPatternData := [], error := some "stale" }

/- ======================= Helper lemmas ======================= -/

/-- Iterating the cycle callback adds the iteration count to the focus
index modulo the (unchanging) buffer length. -/
theorem advanceFocus_iterate (n : Nat) (s : SamplerState)
    (h : s.currentIndex < s.last7Data.length) :
    advanceFocus^[n] s =
      { s with currentIndex := (s.currentIndex + n) % s.last7Data.length } := by
  induction n generalizing s with
  | zero =>
    rw [Function.iterate_zero_apply, Nat.add_zero, Nat.mod_eq_of_lt h]
  | succ n ih =>
    have hpos : 0 < s.last7Data.length := Nat.lt_of_le_of_lt (Nat.zero_le _) h
    have hlen : s.last7Data.length ≠ 0 := Nat.pos_iff_ne_zero.mp hpos
    have hadv : advanceFocus s =
        { s with currentIndex := (s.currentIndex + 1) % s.last7Data.length } := by
      unfold advanceFocus
      rw [if_neg hlen]
    rw [Function.iterate_succ_apply, hadv,
      ih _ (Nat.mod_lt _ hpos)]
    have harith : ((s.currentIndex + 1) % s.last7Data.length + n) % s.last7Data.length
        = (s.currentIndex + (n + 1)) % s.last7Data.length := by
      rw [Nat.mod_add_mod]
      congr 1
      omega
    simp only [harith]

/-- The cycle callback never changes the buffer. -/
theorem advanceFocus_buffer (s : SamplerState) :
    (advanceFocus s).last7Data = s.last7Data := by
  unfold advanceFocus
  split <;> rfl

/-- The refresh handler never changes the focus index. -/
theorem fetch7Data_index (s : SamplerState) (o : FetchOutcome) :
    (fetch7Data s o).currentIndex = s.currentIndex := by
  cases o with
  | fail => rfl
  | envelope success data? =>
    cases data? with
    | none => rfl
    | some data =>
      simp only [fetch7Data]
      split <;> rfl

/-- The generic nested-if classifier agrees with the half-open bucket
description of the design document, for every thresholds record. -/
theorem classifyWith_status (t : PeriodThresholds) (u : ℚ) :
    (classifyWith t u).status = specBucket u t.veryLow t.low t.normal t.high := by
  unfold classifyWith specBucket
  rcases lt_or_le u t.veryLow with h1 | h1
  · simp [h1]
  · rcases lt_or_le u t.low with h2 | h2
    · simp [not_lt.mpr h1, h1, h2]
    · rcases lt_or_le u t.normal with h3 | h3
      · simp [not_lt.mpr h1, not_lt.mpr h2, h2, h3]
      · rcases lt_or_le u t.high with h4 | h4
        · simp [not_lt.mpr h1, not_lt.mpr h2, not_lt.mpr h3, h3, h4]
        · simp [not_lt.mpr h1, not_lt.mpr h2, not_lt.mpr h3, not_lt.mpr h4]

/-- The classifier tier is monotone in the usage argument: a tier
inversion would force some usage to sit on both sides of one
threshold. -/
theorem tier_mono (t : PeriodThresholds) (u1 u2 : ℚ) (h : u1 ≤ u2) :
    statusTier (classifyWith t u1).status ≤ statusTier (classifyWith t u2).status := by
  unfold classifyWith
  split_ifs <;> first | decide | (exfalso; linarith)

/-- The load-pattern handler never changes the peak-usage dataset. -/
theorem fetchLoadPatternData_peak (s : AnalysisState) (r : AnalysisFetch LoadPatternDay) :
    (fetchLoadPatternData s r).peakUsageData = s.peakUsageData := by
  cases r with
  | thrown => rfl
  | httpError => rfl
  | ok body =>
    cases body with
    | none => rfl
    | some data =>
      simp only [fetchLoadPatternData]
      split <;> rfl

/-- The peak-usage handler never changes the `error` cell. -/
theorem fetchPeakUsageData_error (s : AnalysisState) (r : AnalysisFetch PeakData) :
    (fetchPeakUsageData s r).error = s.error := by
  cases r with
  | thrown => rfl
  | httpError => rfl
  | ok body =>
    cases body with
    | none => rfl
    | some data =>
      simp only [fetchPeakUsageData]
      split <;> rfl

/-- The load-pattern handler never changes the `error` cell. -/
theorem fetchLoadPatternData_error (s : AnalysisState) (r : AnalysisFetch LoadPatternDay) :
    (fetchLoadPatternData s r).error = s.error := by
  cases r with
  | thrown => rfl
  | httpError => rfl
  | ok body =>
    cases body with
    | none => rfl
    | some data =>
      simp only [fetchLoadPatternData]
      split <;> rfl

/-- On every failing outcome the peak-usage handler installs the dummy
sample set. -/
theorem fetchPeakUsageData_failing (s : AnalysisState) (r : AnalysisFetch PeakData)
    (h : analysisFailing r = true) :
    (fetchPeakUsageData s r).peakUsageData = DUMMY_PEAK_DATA := by
  cases r with
  | thrown => rfl
  | httpError => rfl
  | ok body =>
    cases body with
    | none => rfl
    | some data =>
      simp only [analysisFailing, beq_iff_eq] at h
      simp [fetchPeakUsageData, h]

/-- On every failing outcome the load-pattern handler installs the dummy
sample set. -/
theorem fetchLoadPatternData_failing (s : AnalysisState) (r : AnalysisFetch LoadPatternDay)
    (h : analysisFailing r = true) :
    (fetchLoadPatternData s r).loadPatternData = DUMMY_LOAD_PATTERN := by
  cases r with
  | thrown => rfl
  | httpError => rfl
  | ok body =>
    cases body with
    | none => rfl
    | some data =>
      simp only [analysisFailing, beq_iff_eq] at h
      simp [fetchLoadPatternData, h]

/- ======================= Claim theorems ======================= -/

/-- Claim C1, as stated, is false on the code: the state reached from the
initial realtime-page state by installing a two-record buffer, advancing
once, and then installing a one-record buffer has a non-empty buffer but
focus index 1, which is not below the buffer length 1 — `fetch7Data` does
not clamp `currentIndex` after a shrinking refresh. -/
theorem focusIndex_invariant_counterexample :
    ¬ (∀ ops : List SamplerOp,
        (runOps initState ops).last7Data ≠ [] →
        (runOps initState ops).currentIndex < (runOps initState ops).last7Data.length) := by
  intro hclaim
  have h := hclaim shrinkOps (by decide)
  exact absurd h (by decide)

/-- Claim C1 (amended): on a non-empty buffer, `advanceFocus` always
produces a focus index in `[0, len(buffer))` (the modulo clamps on the
next advance), but `fetch7Data` never modifies the focus index, so
immediately after a refresh that installs a shorter buffer the index can
be out of range until the next advance. -/
theorem advanceFocus_clamps_fetch7Data_preserves_index :
    ∀ (s : SamplerState), s.last7Data ≠ [] →
      ((advanceFocus s).currentIndex < (advanceFocus s).last7Data.length ∧
        ∀ (o : FetchOutcome), (fetch7Data s o).currentIndex = s.currentIndex) := by
  intro s h
  have hlen : s.last7Data.length ≠ 0 := by
    intro h0
    exact h (List.length_eq_zero.mp h0)
  constructor
  · unfold advanceFocus
    rw [if_neg hlen]
    exact Nat.mod_lt _ (Nat.pos_of_ne_zero hlen)
  · intro o
    exact fetch7Data_index s o

/-- Witness for the amended claim C1 at a one-record buffer whose focus
index is already out of range. -/
theorem advanceFocus_clamps_witness :
    (advanceFocus { last7Data := [p100], currentIndex := 5, isLive := true }).currentIndex <
        (advanceFocus { last7Data := [p100], currentIndex := 5, isLive := true }).last7Data.length ∧
      ∀ (o : FetchOutcome),
        (fetch7Data { last7Data := [p100], currentIndex := 5, isLive := true } o).currentIndex = 5 :=
  advanceFocus_clamps_fetch7Data_preserves_index
    { last7Data := [p100], currentIndex := 5, isLive := true } (by decide)

/-- Claim C2: on every failing fetch outcome (thrown request or non-2xx
status, `success = false`, missing `data`, or empty `data`), `fetch7Data`
leaves the whole state as it was except that `isLive` is set to false. -/
theorem fetch7Data_failure_atomic :
    ∀ (s : SamplerState) (o : FetchOutcome), failingOutcome o = true →
      fetch7Data s o = { s with isLive := false } := by
  intro s o h
  cases o with
  | fail => rfl
  | envelope success data? =>
    cases data? with
    | none => rfl
    | some data =>
      simp only [failingOutcome, Bool.or_eq_true, Bool.not_eq_true', beq_iff_eq] at h
      simp only [fetch7Data]
      rcases h with h | h
      · simp [h]
      · simp [h]

/-- Witness for claim C2 at a thrown request. -/
theorem fetch7Data_failure_atomic_witness :
    fetch7Data initState FetchOutcome.fail = { initState with isLive := false } :=
  fetch7Data_failure_atomic initState FetchOutcome.fail rfl

/-- Claim C3: from the buffer `[p100, p200]` with any valid focus index,
after a successful refresh installing `[p300]`, the next advance yields
focus index 0, which is in range for the new one-record buffer. -/
theorem shrink_scenario_advance_yields_zero :
    ∀ (i : Nat) (live : Bool), i < 2 →
      (advanceFocus (fetch7Data { last7Data := [p100, p200], currentIndex := i, isLive := live }
          (FetchOutcome.envelope true (some [p300])))).currentIndex = 0 ∧
      (advanceFocus (fetch7Data { last7Data := [p100, p200], currentIndex := i, isLive := live }
          (FetchOutcome.envelope true (some [p300])))).currentIndex <
        (advanceFocus (fetch7Data { last7Data := [p100, p200], currentIndex := i, isLive := live }
          (FetchOutcome.envelope true (some [p300])))).last7Data.length := by
  intro i live _
  simp [fetch7Data, advanceFocus, Nat.mod_one]

/-- Witness for claim C3 at focus index 1. -/
theorem shrink_scenario_advance_yields_zero_witness :
    (advanceFocus (fetch7Data { last7Data := [p100, p200], currentIndex := 1, isLive := false }
        (FetchOutcome.envelope true (some [p300])))).currentIndex = 0 ∧
    (advanceFocus (fetch7Data { last7Data := [p100, p200], currentIndex := 1, isLive := false }
        (FetchOutcome.envelope true (some [p300])))).currentIndex <
      (advanceFocus (fetch7Data { last7Data := [p100, p200], currentIndex := 1, isLive := false }
        (FetchOutcome.envelope true (some [p300])))).last7Data.length :=
  shrink_scenario_advance_yields_zero 1 false (by decide)

/-- Claim C4: for a buffer of length `L ≥ 1` and any starting focus index
in `[0, L)`, applying the advance operation `L` times returns the focus
index to its original value. -/
theorem advanceFocus_cyclic :
    ∀ (s : SamplerState) (L : Nat), s.last7Data.length = L → 1 ≤ L →
      s.currentIndex < L →
      (advanceFocus^[L] s).currentIndex = s.currentIndex := by
  intro s L hL _ hidx
  subst hL
  rw [advanceFocus_iterate _ s hidx]
  simp only [Nat.add_mod_right]
  exact Nat.mod_eq_of_lt hidx

/-- Witness for claim C4 at a two-record buffer with focus index 1. -/
theorem advanceFocus_cyclic_witness :
    (advanceFocus^[2] { last7Data := [p100, p200], currentIndex := 1, isLive := true }).currentIndex
      = 1 :=
  advanceFocus_cyclic { last7Data := [p100, p200], currentIndex := 1, isLive := true } 2
    rfl (by decide) (by decide)

/-- Claim C5: `getEnergyStatus` buckets its argument against the five
ascending per-period thresholds with half-open lower-inclusive,
upper-exclusive boundaries and an unbounded last bucket, exactly per the
table of the design document; in particular usage 7.9 is Low and usage 8
is Normal for the daily period. -/
theorem getEnergyStatus_buckets :
    (∀ (u : ℚ) (p : Period), (getEnergyStatus u p).status = specClassify u p) ∧
    (getEnergyStatus 7.9 Period.daily).status = "Low" ∧
    (getEnergyStatus 8 Period.daily).status = "Normal" := by
  refine ⟨?_, ?_, ?_⟩
  · intro u p
    cases p <;> exact classifyWith_status _ u
  · norm_num [getEnergyStatus, classifyWith, ENERGY_THRESHOLDS]
  · norm_num [getEnergyStatus, classifyWith, ENERGY_THRESHOLDS]

/-- Claim C6: for every fixed period, the status tier of
`getEnergyStatus` is monotone in the usage. -/
theorem getEnergyStatus_monotone :
    ∀ (p : Period) (u1 u2 : ℚ), u1 < u2 →
      statusTier (getEnergyStatus u1 p).status ≤ statusTier (getEnergyStatus u2 p).status := by
  intro p u1 u2 h
  cases p <;> exact tier_mono _ u1 u2 (le_of_lt h)

/-- Witness for claim C6 at daily usages 1 and 10. -/
theorem getEnergyStatus_monotone_witness :
    statusTier (getEnergyStatus 1 Period.daily).status ≤
      statusTier (getEnergyStatus 10 Period.daily).status :=
  getEnergyStatus_monotone Period.daily 1 10 (by norm_num)

/-- Claim C7: both copies of `calculateCost` return
`idr = kWh * 1444.70` and `usd = idr / 15500`, with no rounding, and
agree with each other. -/
theorem calculateCost_def :
    ∀ (k : ℚ),
      (calculateCost k).idr = k * 1444.70 ∧
      (calculateCost k).usd = (calculateCost k).idr / 15500 ∧
      calculateCostReports k = calculateCost k := by
  intro k
  exact ⟨rfl, rfl, rfl⟩

/-- Claim C8: `calculateCost 0` is the zero cost record, and the IDR
component is linear: doubling the energy doubles the cost. -/
theorem calculateCost_zero_and_linear :
    calculateCost 0 = { idr := 0, usd := 0 } ∧
    ∀ (k : ℚ), (calculateCost (2 * k)).idr = 2 * (calculateCost k).idr := by
  constructor
  · simp [calculateCost]
  · intro k
    show 2 * k * ELECTRICITY_RATES.R1_2200VA = 2 * (k * ELECTRICITY_RATES.R1_2200VA)
    ring

/-- Claim C9: whenever the peak-usage fetch or the load-pattern fetch
fails (thrown, non-2xx, non-array body, or empty array), the analysis
page installs the corresponding hardcoded dummy dataset, and the `error`
cell ends up `none` in every case. -/
theorem analysis_dummy_fallback :
    ∀ (s : AnalysisState) (rp : AnalysisFetch PeakData) (rl : AnalysisFetch LoadPatternDay),
      (analysisFailing rp = true →
        (fetchAllData s rp rl).peakUsageData = DUMMY_PEAK_DATA) ∧
      (analysisFailing rl = true →
        (fetchAllData s rp rl).loadPatternData = DUMMY_LOAD_PATTERN) ∧
      (fetchAllData s rp rl).error = none := by
  intro s rp rl
  refine ⟨?_, ?_, ?_⟩
  · intro h
    unfold fetchAllData
    rw [fetchLoadPatternData_peak]
    exact fetchPeakUsageData_failing _ _ h
  · intro h
    unfold fetchAllData
    exact fetchLoadPatternData_failing _ _ h
  · unfold fetchAllData
    rw [fetchLoadPatternData_error, fetchPeakUsageData_error]

/-- Witness for claim C9 with both requests thrown. -/
theorem analysis_dummy_fallback_witness :
    (fetchAllData analysisInit AnalysisFetch.thrown AnalysisFetch.thrown).peakUsageData
        = DUMMY_PEAK_DATA ∧
      (fetchAllData analysisInit AnalysisFetch.thrown AnalysisFetch.thrown).loadPatternData
        = DUMMY_LOAD_PATTERN ∧
      (fetchAllData analysisInit AnalysisFetch.thrown AnalysisFetch.thrown).error = none :=
  ⟨(analysis_dummy_fallback analysisInit AnalysisFetch.thrown AnalysisFetch.thrown).1 rfl,
   (analysis_dummy_fallback analysisInit AnalysisFetch.thrown AnalysisFetch.thrown).2.1 rfl,
   (analysis_dummy_fallback analysisInit AnalysisFetch.thrown AnalysisFetch.thrown).2.2⟩

/-- Claim C10: a successful envelope with an empty data array is handled
exactly like a failure (state unchanged except `isLive := false`), and
once the realtime buffer is non-empty it stays non-empty under every
sequence of refresh and advance operations. -/
theorem buffer_never_emptied :
    (∀ (s : SamplerState),
      fetch7Data s (FetchOutcome.envelope true (some [])) = { s with isLive := false }) ∧
    (∀ (s : SamplerState) (ops : List SamplerOp),
      s.last7Data ≠ [] → (runOps s ops).last7Data ≠ []) := by
  constructor
  · intro s
    rfl
  · intro s ops
    induction ops generalizing s with
    | nil => exact fun h => h
    | cons op rest ih =>
      intro h
      apply ih
      cases op with
      | advance =>
        show (advanceFocus s).last7Data ≠ []
        rw [advanceFocus_buffer]
        exact h
      | refresh o =>
        show (fetch7Data s o).last7Data ≠ []
        cases o with
        | fail => exact h
        | envelope success data? =>
          cases data? with
          | none => exact h
          | some data =>
            simp only [fetch7Data]
            split
            · rename_i hcond
              simp only [Bool.and_eq_true, decide_eq_true_eq] at hcond
              exact List.length_pos.mp hcond.2
            · exact h

/-- Witness for claim C10: empty-data refresh on the initial state, and
preservation of non-emptiness from a one-record buffer over one advance. -/
theorem buffer_never_emptied_witness :
    fetch7Data initState (FetchOutcome.envelope true (some [])) = { initState with isLive := false } ∧
      (runOps { last7Data := [p100], currentIndex := 0, isLive := true }
        [SamplerOp.advance]).last7Data ≠ [] :=
  ⟨buffer_never_emptied.1 initState,
   buffer_never_emptied.2 { last7Data := [p100], currentIndex := 0, isLive := true }
     [SamplerOp.advance] (by decide)⟩
